import Mathlib

/-!
Verification development for `scripts/generate-qr.py` of the
credebl-w3c-credential-issuance repository.

The script is a single synchronous command-line program.  We embed it as a
pure function from its inputs (parsed arguments, availability of the optional
`requests` package, a network oracle giving the outcome of the one possible
HTTP POST, a path-resolution function standing for `os.path.abspath`, and the
invocation-time clock reading) to the list of observable events it performs,
in order: lines printed to standard output, the usage dump of
`parser.print_help()`, the HTTP POST, the QR image file write, the terminal
QR rendering, and `sys.exit(1)`.

Modelling notes:
 - `requests.post` / `raise_for_status` / `response.json()` are folded into a
   single oracle `net : HttpRequest -> HttpOutcome`.  `HttpOutcome.transportError`
   stands for any `requests.exceptions.RequestException` (connection errors,
   timeouts, and JSON-decode failures of the body, which in `requests` are
   `RequestException`s); `HttpOutcome.response s body` stands for a final
   response with status `s` whose body parsed as a JSON object, projected to
   the only fields the script consumes plus the raw dump used by `--json`.
   `raise_for_status` raises exactly for statuses in `[400, 600)`.
 - The text of a `requests` exception is not modelled: for a status error we
   print `httpStatusError s`, a stand-in for the library's message.
 - Exceptions raised inside the `qrcode` library (for example when the data
   is Python `None`) are outside the embedding: the only modelled exits are
   the script's own `sys.exit(1)` calls.
 - Python truthiness of strings (`a or b`, `elif args.invitation_url:`,
   `if not args.api_key:`) is modelled exactly: `None` and `""` are falsy.
-/

namespace GenerateQr

/-- Invocation-time clock reading, the fields `datetime.now()` contributes to
`strftime("%Y%m%d_%H%M%S")`. -/
structure DateTime where
  year : Nat
  month : Nat
  day : Nat
  hour : Nat
  minute : Nat
  second : Nat
deriving DecidableEq, Repr

/-- Zero-pad to two digits, as `%m`, `%d`, `%H`, `%M`, `%S` do. -/
def pad2 (n : Nat) : String :=
  if n < 10 then "0" ++ toString n else toString n

/-- Zero-pad to four digits, as `%Y` does. -/
def pad4 (n : Nat) : String :=
  if n < 10 then "000" ++ toString n
  else if n < 100 then "00" ++ toString n
  else if n < 1000 then "0" ++ toString n
  else toString n

/-- Python `datetime.now().strftime("%Y%m%d_%H%M%S")` (line 177 of the script). -/
def strftimeTs (t : DateTime) : String :=
  pad4 t.year ++ pad2 t.month ++ pad2 t.day ++ "_" ++
    pad2 t.hour ++ pad2 t.minute ++ pad2 t.second

/-- The parsed command-line arguments, after `argparse` has applied its
defaults (shown as the field defaults).  `api_key` is the resolved value:
`argparse` uses the flag if given, else `os.environ.get("CREDEBL_API_KEY", "")`
(see `resolveApiKey`). -/
structure Args where
  invitation_url : Option String := none
  output_file : Option String := none
  from_api : Bool := false
  base_url : String := "http://localhost:8004"
  api_key : String := ""
  label : String := "CREDEBL Issuer"
  output_file_flag : Option String := none
  size : Int := 10
  terminal : Bool := false
  json : Bool := false
deriving DecidableEq, Repr

/-- The `argparse` default for `--api-key`: the flag value when supplied,
else `os.environ.get("CREDEBL_API_KEY", "")` (lines 140-144). -/
def resolveApiKey (flag : Option String) (envKey : Option String) : String :=
  match flag with
  | some k => k
  | none => envKey.getD ""

/-- Python truthiness of an optional string: `None` and `""` are falsy. -/
def truthy : Option String → Bool
  | none => false
  | some s => s != ""

/-- Python `a or b` on optional strings (line 175:
`args.output_file_flag or args.output_file`): the left value when truthy,
else the right value. -/
def pyOrOpt (a b : Option String) : Option String :=
  match a with
  | some s => if s != "" then some s else b
  | none => b

/-- Python `print(x)` of a value that may be `None`. -/
def pyStr : Option String → String
  | none => "None"
  | some s => s

/-- Output file resolution (lines 174-178): the `--output` flag `or` the
positional argument, else the generated default `qr_<timestamp>.png`. -/
def outputPath (args : Args) (now : DateTime) : String :=
  (pyOrOpt args.output_file_flag args.output_file).getD
    ("qr_" ++ strftimeTs now ++ ".png")

/-- Error-correction level constants of the `qrcode` package. -/
inductive ECLevel
  | L
  | M
  | Q
  | H
deriving DecidableEq, Repr

/-- The parameters handed to `qrcode.QRCode(...)` plus the `fit` flag of
`qr.make(fit=...)`. -/
structure QrParams where
  version : Nat
  errorCorrection : ECLevel
  boxSize : Int
  border : Nat
  fit : Bool
deriving DecidableEq, Repr

/-- The JSON body of the create-invitation POST (lines 71-81). -/
structure Payload where
  label : String
  goalCode : String
  goal : String
  handshake : Bool
  handshakeProtocols : List String
  autoAcceptConnection : Bool
deriving DecidableEq, Repr

/-- The one HTTP request the script can issue (lines 66-84). -/
structure HttpRequest where
  url : String
  authorization : String
  contentType : String
  body : Payload
  timeout : Nat
deriving DecidableEq, Repr

/-- A successfully JSON-parsed response body, projected to the fields the
script consumes: `invitationUrl`, `outOfBandRecord.id`, and the raw dump
printed under `--json`. -/
structure ApiResponse where
  invitationUrl : Option String := none
  outOfBandRecordId : Option String := none
  rawJson : String := ""
deriving DecidableEq, Repr

/-- Outcome of `requests.post` followed by `raise_for_status` and `.json()`:
either some `RequestException` (transport failure, timeout, or an unparsable
body), or a final response with its status and parsed body. -/
inductive HttpOutcome
  | transportError (msg : String)
  | response (status : Nat) (body : ApiResponse)
deriving DecidableEq, Repr

/-- Observable events of one invocation, in program order. -/
inductive Event
  | print (line : String)
  | printHelp
  | httpPost (req : HttpRequest)
  | writeFile (path : String) (qr : QrParams) (fill : String) (back : String)
      (data : Option String)
  | terminalQr (qr : QrParams) (invert : Bool) (data : Option String)
  | exitFailure
deriving DecidableEq, Repr

/-- Stand-in for the message of the `requests.exceptions.HTTPError` that
`raise_for_status` raises on a status in `[400, 600)`. -/
def httpStatusError (status : Nat) : String :=
  "HTTP error for status " ++ toString status

/-- Model of `create_qr_code(data, output_file, size)` (lines 42-56): builds a
`qrcode.QRCode` with version 1, error correction L, the given box size and
border 4, fits it to the data, and saves a black-on-white image. -/
def create_qr_code (data : Option String) (output_file : String) (size : Int) :
    Event :=
  Event.writeFile output_file
    { version := 1, errorCorrection := ECLevel.L, boxSize := size, border := 4,
      fit := true }
    "black" "white" data

/-- Model of `print_terminal_qr(data)` (lines 92-104): version 1, error
correction L,
box size 1, border 2, printed with `print_ascii(invert=True)`. -/
def print_terminal_qr (data : Option String) : Event :=
  Event.terminalQr
    { version := 1, errorCorrection := ECLevel.L, boxSize := 1, border := 2,
      fit := true }
    true data

/-- The request built by `create_invitation_from_api` (lines 66-84). -/
def apiReq (args : Args) : HttpRequest :=
  { url := args.base_url ++ "/didcomm/oob/create-invitation"
    authorization := args.api_key
    contentType := "application/json"
    body :=
      { label := args.label
        goalCode := "issue-vc"
        goal := "Issue Verifiable Credential"
        handshake := true
        handshakeProtocols :=
          ["https://didcomm.org/didexchange/1.x",
           "https://didcomm.org/connections/1.x"]
        autoAcceptConnection := true }
    timeout := 30 }

/-- Status prints at the start of the API branch (lines 187-190). -/
def apiPre (args : Args) : List Event :=
  [Event.print "Creating invitation via API...",
   Event.print ("  Base URL: " ++ args.base_url),
   Event.print ("  Label: " ++ args.label),
   Event.print ""]

/-- Events of the missing-API-key exit (lines 182-185). -/
def keyErrEvents : List Event :=
  [Event.print "Error: API key required when using --from-api",
   Event.print "Set CREDEBL_API_KEY environment variable or use --api-key",
   Event.exitFailure]

/-- Events of the usage-error exit (lines 210-213). -/
def usageEvents : List Event :=
  [Event.print "Error: Either provide invitation_url or use --from-api",
   Event.printHelp,
   Event.exitFailure]

/-- Events of `create_invitation_from_api` when `requests` is not installed
(lines 61-64). -/
def requestsMissingEvents : List Event :=
  [Event.print "Error: requests package not installed.",
   Event.print "Run: pip install requests",
   Event.exitFailure]

/-- The `--json` dump (lines 200-202). -/
def jsonDump (args : Args) (body : ApiResponse) : List Event :=
  if args.json then [Event.print body.rawJson, Event.print ""] else []

/-- The success summary after invitation creation (lines 204-206). -/
def successNote (body : ApiResponse) : List Event :=
  [Event.print "Invitation created successfully!",
   Event.print ("  OOB Record ID: " ++ body.outOfBandRecordId.getD "N/A"),
   Event.print ""]

/-- A single byte of the UTF-8 encoding of a character, the encoding
`urllib.parse.quote` applies before percent-escaping. -/
def utf8Bytes (c : Char) : List UInt8 :=
  let n := c.toNat
  if n < 0x80 then [UInt8.ofNat n]
  else if n < 0x800 then
    [UInt8.ofNat (0xC0 + n / 0x40), UInt8.ofNat (0x80 + n % 0x40)]
  else if n < 0x10000 then
    [UInt8.ofNat (0xE0 + n / 0x1000), UInt8.ofNat (0x80 + n / 0x40 % 0x40),
     UInt8.ofNat (0x80 + n % 0x40)]
  else
    [UInt8.ofNat (0xF0 + n / 0x40000), UInt8.ofNat (0x80 + n / 0x1000 % 0x40),
     UInt8.ofNat (0x80 + n / 0x40 % 0x40), UInt8.ofNat (0x80 + n % 0x40)]

/-- Uppercase hexadecimal digit, as `urllib.parse.quote` emits. -/
def hexDigit (n : Nat) : Char :=
  if n < 10 then Char.ofNat (48 + n) else Char.ofNat (55 + n)

/-- Bytes `urllib.parse.quote` leaves unescaped with its default
`safe` string: ALPHA, DIGIT, `_`, `.`, `-`, `~`, and `/`. -/
def quoteSafe (b : UInt8) : Bool :=
  let n := b.toNat
  (65 ≤ n && n ≤ 90) || (97 ≤ n && n ≤ 122) || (48 ≤ n && n ≤ 57) ||
    n == 95 || n == 46 || n == 45 || n == 126 || n == 47

/-- One byte rendered by `urllib.parse.quote`. -/
def quoteByteStr (b : UInt8) : String :=
  if quoteSafe b then String.singleton (Char.ofNat b.toNat)
  else "%" ++ String.singleton (hexDigit (b.toNat / 16)) ++
    String.singleton (hexDigit (b.toNat % 16))

/-- Python `requests.utils.quote(s)`, which is `urllib.parse.quote` with the
default
`safe` string `"/"` (line 233). -/
def pyQuote (s : String) : String :=
  (s.data.flatMap utf8Bytes).foldl (fun acc b => acc ++ quoteByteStr b) ""

/-- Python `s.replace("&", "%26")`, the fallback encoding used when `requests`
is
not installed (line 233). -/
def pyReplaceAmp (s : String) : String :=
  s.data.foldl (fun acc c =>
    acc ++ (if c = '&' then "%26" else String.singleton c)) ""

/-- URL-reserved characters (RFC 3986 gen-delims and sub-delims); used only
to state claims about percent-encoding. -/
def urlReserved (c : Char) : Bool :=
  c == ':' || c == '/' || c == '?' || c == '#' || c == '[' || c == ']' ||
    c == '@' || c == '!' || c == '$' || c == '&' || c == '+' || c == ',' ||
    c == ';' || c == '=' || c == '*' || c == '(' || c == ')'

/-- The `data=` value of the printed qrserver link (line 233): percent-encode
through `requests.utils.quote` when `requests` imported, else replace `&`. -/
def encodedUrl (reqAvail : Bool) (inv : Option String) : String :=
  if reqAvail then pyQuote (pyStr inv) else pyReplaceAmp (pyStr inv)

/-- Events from `# Generate QR code` to the end of `main` (lines 215-238),
shared by both acquisition branches. -/
def successTail (reqAvail : Bool) (abspath : String → String) (args : Args)
    (out : String) (inv : Option String) : List Event :=
  [Event.print "Generating QR code...",
   create_qr_code inv out args.size,
   Event.print ("  Output: " ++ abspath out),
   Event.print ""]
  ++ (if args.terminal then
        [Event.print "Terminal QR Code:", print_terminal_qr inv, Event.print ""]
      else [])
  ++ [Event.print "Invitation URL:",
      Event.print (pyStr inv),
      Event.print "",
      Event.print "Online QR Generator:",
      Event.print
        ("https://api.qrserver.com/v1/create-qr-code/?size=300x300&data=" ++
          encodedUrl reqAvail inv),
      Event.print "",
      Event.print "Done! Scan the QR code with your mobile wallet."]

/-- The script's `main()` (lines 107-238) as a trace of observable events.
`reqAvail`
says whether the optional `requests` import succeeded, `net` gives the
outcome of the one possible HTTP POST, `abspath` stands for
`os.path.abspath`, `now` is the invocation-time clock reading. -/
def main (reqAvail : Bool) (net : HttpRequest → HttpOutcome)
    (abspath : String → String) (now : DateTime) (args : Args) : List Event :=
  let out := outputPath args now
  if args.from_api then
    if args.api_key = "" then keyErrEvents
    else if reqAvail = false then apiPre args ++ requestsMissingEvents
    else
      match net (apiReq args) with
      | HttpOutcome.transportError m =>
          apiPre args ++
            [Event.httpPost (apiReq args),
             Event.print ("Error creating invitation: " ++ m),
             Event.exitFailure]
      | HttpOutcome.response s body =>
          if 400 ≤ s ∧ s < 600 then
            apiPre args ++
              [Event.httpPost (apiReq args),
               Event.print ("Error creating invitation: " ++ httpStatusError s),
               Event.exitFailure]
          else
            apiPre args ++ [Event.httpPost (apiReq args)] ++
              jsonDump args body ++ successNote body ++
              successTail reqAvail abspath args out body.invitationUrl
  else if truthy args.invitation_url then
    successTail reqAvail abspath args out args.invitation_url
  else usageEvents

/-- Recognise the HTTP-POST events of a trace. -/
def isPost : Event → Bool
  | Event.httpPost _ => true
  | _ => false

/-- Number of HTTP POSTs an invocation performs. -/
def countPosts (tr : List Event) : Nat :=
  tr.countP isPost

/-- Recognise the image-file-write events of a trace. -/
def isWriteFile : Event → Bool
  | Event.writeFile _ _ _ _ _ => true
  | _ => false

/-- All image-file writes of a trace, in order. -/
def writesOf (tr : List Event) : List Event :=
  tr.filter isWriteFile

/-- A fixed invocation-time clock reading used by concrete instances. -/
def ts0 : DateTime := ⟨2025, 1, 2, 3, 4, 5⟩

/-- A concrete stand-in for `os.path.abspath` resolving against `/cwd`. -/
def cwdAbs : String → String := fun s => "/cwd/" ++ s

/-- A concrete parsed response body carrying an invitation URL. -/
def okBody : ApiResponse :=
  { invitationUrl := some "https://x?oob=Y", outOfBandRecordId := some "rec-1",
    rawJson := "dump" }

/-- A concrete parsed response body lacking the `invitationUrl` field. -/
def noUrlBody : ApiResponse :=
  { invitationUrl := none, outOfBandRecordId := some "rec-1", rawJson := "dump" }

/-- A network oracle answering every request with status 201 and `okBody`. -/
def netOK : HttpRequest → HttpOutcome := fun _ => HttpOutcome.response 201 okBody

/-- A network oracle answering with the non-2xx, non-error status 304. -/
def net304 : HttpRequest → HttpOutcome :=
  fun _ => HttpOutcome.response 304 okBody

/-- A network oracle failing every request at the transport layer. -/
def netErr : HttpRequest → HttpOutcome :=
  fun _ => HttpOutcome.transportError "connection refused"

/-- A network oracle answering 200 with a body lacking `invitationUrl`. -/
def netNoUrl : HttpRequest → HttpOutcome :=
  fun _ => HttpOutcome.response 200 noUrlBody

/-- Arguments: `--from-api --api-key k`, everything else defaulted. -/
def argsApi : Args := { from_api := true, api_key := "k" }

/-- Arguments: a positional invitation URL together with `--from-api`. -/
def argsBoth : Args :=
  { invitation_url := some "https://example.com?oob=ABC", from_api := true,
    api_key := "k" }

/-- Arguments: a positional invitation URL only. -/
def argsDirect : Args := { invitation_url := some "https://a?b=c" }

/-- Arguments: neither a positional invitation URL nor `--from-api`. -/
def argsNoInput : Args := {}

/-- Arguments: positional output file `pos.png` together with `--output ""`. -/
def argsEmptyFlag : Args :=
  { invitation_url := some "https://a?b=c", output_file := some "pos.png",
    output_file_flag := some "" }

/-- Arguments: a positional invitation URL containing reserved characters. -/
def argsReserved : Args := { invitation_url := some "https://a/b?c=d&e" }

/-- Arguments: a positional invitation URL together with `--terminal`. -/
def argsDirectTerm : Args :=
  { invitation_url := some "https://a?b=c", terminal := true }

/-- Arguments: `--from-api --api-key k --terminal`. -/
def argsApiTerm : Args := { from_api := true, api_key := "k", terminal := true }

/-- Arguments: `--from-api` with no `--api-key` flag and an unset
`CREDEBL_API_KEY`, so the resolved key is the empty default. -/
def argsApiNoKey : Args := { from_api := true }

/-- Whether the outcome raises a `RequestException` inside the `try` block of
`create_invitation_from_api`: always for transport failures, and for final
statuses in `[400, 600)`, which is exactly when `raise_for_status` raises. -/
def isReqError : HttpOutcome → Bool
  | HttpOutcome.transportError _ => true
  | HttpOutcome.response s _ => decide (400 ≤ s) && decide (s < 600)

/-- The message of the raised exception: the transport message, or the
stand-in text for the status error of `raise_for_status`. -/
def outcomeMsg : HttpOutcome → String
  | HttpOutcome.transportError m => m
  | HttpOutcome.response s _ => httpStatusError s

theorem countPosts_apiPre (args : Args) : countPosts (apiPre args) = 0 := by
  simp [countPosts, apiPre, List.countP_cons, isPost]

theorem countPosts_jsonDump (args : Args) (b : ApiResponse) :
    countPosts (jsonDump args b) = 0 := by
  cases h : args.json <;>
    simp [countPosts, jsonDump, h, List.countP_cons, isPost]

theorem countPosts_successNote (b : ApiResponse) :
    countPosts (successNote b) = 0 := by
  simp [countPosts, successNote, List.countP_cons, isPost]

theorem countPosts_successTail (r : Bool) (a : String → String) (args : Args)
    (o : String) (i : Option String) :
    countPosts (successTail r a args o i) = 0 := by
  cases h : args.terminal <;>
    simp [countPosts, successTail, h, create_qr_code, print_terminal_qr,
      List.countP_cons, List.countP_append, isPost]

theorem writesOf_apiPre (args : Args) : writesOf (apiPre args) = [] := by
  simp [writesOf, apiPre, List.filter_cons, isWriteFile]

theorem writesOf_jsonDump (args : Args) (b : ApiResponse) :
    writesOf (jsonDump args b) = [] := by
  cases h : args.json <;>
    simp [writesOf, jsonDump, h, List.filter_cons, isWriteFile]

theorem writesOf_successNote (b : ApiResponse) :
    writesOf (successNote b) = [] := by
  simp [writesOf, successNote, List.filter_cons, isWriteFile]

theorem writesOf_successTail (r : Bool) (a : String → String) (args : Args)
    (o : String) (i : Option String) :
    writesOf (successTail r a args o i) =
      [Event.writeFile o
        { version := 1, errorCorrection := ECLevel.L, boxSize := args.size,
          border := 4, fit := true } "black" "white" i] := by
  cases h : args.terminal <;>
    simp [writesOf, successTail, h, create_qr_code, print_terminal_qr,
      List.filter_cons, List.filter_append, isWriteFile]

theorem writesOf_append (a b : List Event) :
    writesOf (a ++ b) = writesOf a ++ writesOf b := by
  simp [writesOf, List.filter_append]

theorem writesOf_post (r : HttpRequest) :
    writesOf [Event.httpPost r] = [] := rfl

theorem exitFailure_not_mem_successTail (r : Bool) (a : String → String)
    (args : Args) (o : String) (i : Option String) :
    Event.exitFailure ∉ successTail r a args o i := by
  cases h : args.terminal <;>
    simp [successTail, h, create_qr_code, print_terminal_qr]

theorem printHelp_not_mem_successTail (r : Bool) (a : String → String)
    (args : Args) (o : String) (i : Option String) :
    Event.printHelp ∉ successTail r a args o i := by
  cases h : args.terminal <;>
    simp [successTail, h, create_qr_code, print_terminal_qr]

theorem write_mem_successTail (r : Bool) (a : String → String) (args : Args)
    (o : String) (i : Option String) :
    Event.writeFile o
      { version := 1, errorCorrection := ECLevel.L, boxSize := args.size,
        border := 4, fit := true } "black" "white" i ∈
      successTail r a args o i := by
  cases h : args.terminal <;> simp [successTail, h, create_qr_code]

theorem qrLink_mem_successTail (r : Bool) (a : String → String) (args : Args)
    (o : String) (i : Option String) :
    Event.print
      ("https://api.qrserver.com/v1/create-qr-code/?size=300x300&data=" ++
        encodedUrl r i) ∈ successTail r a args o i := by
  cases h : args.terminal <;> simp [successTail, h]

theorem printNone_mem_successTail (r : Bool) (a : String → String)
    (args : Args) (o : String) :
    Event.print "None" ∈ successTail r a args o none := by
  cases h : args.terminal <;> simp [successTail, h, pyStr]

/-- Claim C1, counterexample: with both a positional invitation URL and
`--from-api` supplied (and a resolvable API key, reachable network), the
program prints no usage text and does not terminate with failure — it
proceeds on the API path and writes the QR image — whereas the claim
requires an error, the usage text and a failure exit with no image file. -/
theorem c1_counterexample :
    Event.printHelp ∉ main true netOK cwdAbs ts0 argsBoth ∧
    Event.exitFailure ∉ main true netOK cwdAbs ts0 argsBoth ∧
    writesOf (main true netOK cwdAbs ts0 argsBoth) =
      [Event.writeFile "qr_20250102_030405.png"
        { version := 1, errorCorrection := ECLevel.L, boxSize := 10,
          border := 4, fit := true } "black" "white"
        (some "https://x?oob=Y")] := by
  refine ⟨?_, ?_, ?_⟩ <;> decide

/-- Claim C1, amended: when `--from-api` is absent and the positional
invitation URL is absent (or empty, which Python truthiness treats as
absent), the program prints the error message and the usage text to standard
output and terminates with failure, writing no image file.  (When both inputs
are supplied the API path is taken instead; see C10.) -/
theorem c1_usage_error (reqAvail : Bool) (net : HttpRequest → HttpOutcome)
    (abspath : String → String) (now : DateTime) (args : Args)
    (hapi : args.from_api = false)
    (hurl : truthy args.invitation_url = false) :
    main reqAvail net abspath now args =
      [Event.print "Error: Either provide invitation_url or use --from-api",
       Event.printHelp, Event.exitFailure] := by
  simp [main, hapi, hurl, usageEvents]

/-- Claim C1, witness for the amended theorem at a concrete invocation with
neither input supplied. -/
theorem c1_usage_error_witness :
    main true netOK cwdAbs ts0 argsNoInput =
      [Event.print "Error: Either provide invitation_url or use --from-api",
       Event.printHelp, Event.exitFailure] :=
  c1_usage_error true netOK cwdAbs ts0 argsNoInput rfl rfl

/-- Claim C2: in API mode, when the `--api-key` flag is absent and the
`CREDEBL_API_KEY` environment variable is unset or empty, the resolved key is
empty, the program prints the error and terminates with failure, and no HTTP
request occurs in the trace. -/
theorem c2_no_api_key (reqAvail : Bool) (net : HttpRequest → HttpOutcome)
    (abspath : String → String) (now : DateTime) (args : Args)
    (envKey : Option String)
    (hapi : args.from_api = true)
    (hres : args.api_key = resolveApiKey none envKey)
    (henv : envKey = none ∨ envKey = some "") :
    main reqAvail net abspath now args =
      [Event.print "Error: API key required when using --from-api",
       Event.print "Set CREDEBL_API_KEY environment variable or use --api-key",
       Event.exitFailure] ∧
    ∀ r : HttpRequest, Event.httpPost r ∉ main reqAvail net abspath now args := by
  have hk : args.api_key = "" := by
    rcases henv with h | h <;> simp [hres, resolveApiKey, h]
  have heq : main reqAvail net abspath now args = keyErrEvents := by
    simp [main, hapi, hk]
  refine ⟨by simpa [keyErrEvents] using heq, ?_⟩
  intro r hr
  rw [heq] at hr
  simp [keyErrEvents] at hr

/-- Claim C2, witness: the concrete invocation `--from-api` with no key. -/
theorem c2_no_api_key_witness :
    main true netOK cwdAbs ts0 argsApiNoKey =
      [Event.print "Error: API key required when using --from-api",
       Event.print "Set CREDEBL_API_KEY environment variable or use --api-key",
       Event.exitFailure] ∧
    ∀ r : HttpRequest, Event.httpPost r ∉ main true netOK cwdAbs ts0 argsApiNoKey :=
  c2_no_api_key true netOK cwdAbs ts0 argsApiNoKey none rfl rfl (Or.inl rfl)

/-- Claim C3, counterexample: a final HTTP status of 304 — not 2xx — with a
JSON body does not terminate the program: `raise_for_status` only raises for
statuses in `[400, 600)`, so the run proceeds and writes the image file,
contrary to the claim that any non-2xx status is printed as an error and
exits with failure without writing a file. -/
theorem c3_counterexample :
    Event.exitFailure ∉ main true net304 cwdAbs ts0 argsApi ∧
    writesOf (main true net304 cwdAbs ts0 argsApi) =
      [Event.writeFile "qr_20250102_030405.png"
        { version := 1, errorCorrection := ECLevel.L, boxSize := 10,
          border := 4, fit := true } "black" "white"
        (some "https://x?oob=Y")] := by
  refine ⟨?_, ?_⟩ <;> decide

/-- Claim C3, amended: in API mode, when the POST raises a transport error or
the final status is 4xx/5xx (the statuses `raise_for_status` raises on), the
error message is printed and the trace ends in a failure exit, with exactly
one POST (no retry) and no image file written. -/
theorem c3_api_failure (net : HttpRequest → HttpOutcome)
    (abspath : String → String) (now : DateTime) (args : Args)
    (hapi : args.from_api = true) (hkey : args.api_key ≠ "")
    (herr : isReqError (net (apiReq args)) = true) :
    main true net abspath now args =
      apiPre args ++
        [Event.httpPost (apiReq args),
         Event.print
           ("Error creating invitation: " ++ outcomeMsg (net (apiReq args))),
         Event.exitFailure] ∧
    writesOf (main true net abspath now args) = [] := by
  have heq : main true net abspath now args =
      apiPre args ++
        [Event.httpPost (apiReq args),
         Event.print
           ("Error creating invitation: " ++ outcomeMsg (net (apiReq args))),
         Event.exitFailure] := by
    rcases hn : net (apiReq args) with m | ⟨s, body⟩
    · simp [main, hapi, hkey, hn, outcomeMsg]
    · have hs : 400 ≤ s ∧ s < 600 := by
        rw [hn] at herr
        simpa [isReqError] using herr
      simp [main, hapi, hkey, hn, hs, outcomeMsg]
  refine ⟨heq, ?_⟩
  rw [heq]
  simp [writesOf, apiPre, isWriteFile, List.filter_append, List.filter_cons]

/-- Claim C3, witness for the amended theorem: a concrete transport failure. -/
theorem c3_api_failure_witness :
    main true netErr cwdAbs ts0 argsApi =
      apiPre argsApi ++
        [Event.httpPost (apiReq argsApi),
         Event.print
           ("Error creating invitation: " ++
             outcomeMsg (netErr (apiReq argsApi))),
         Event.exitFailure] ∧
    writesOf (main true netErr cwdAbs ts0 argsApi) = [] :=
  c3_api_failure netErr cwdAbs ts0 argsApi rfl (by decide) rfl

/-- Claim C4, counterexample: with `--output ""` (the flag supplied with an
empty value) and positional output file `pos.png`, the image is written to
`pos.png`, not to the supplied flag value: Python `or` treats the empty flag
as absent, contrary to the claim that the flag value is used whenever the
flag is supplied. -/
theorem c4_counterexample :
    writesOf (main true netOK cwdAbs ts0 argsEmptyFlag) =
      [Event.writeFile "pos.png"
        { version := 1, errorCorrection := ECLevel.L, boxSize := 10,
          border := 4, fit := true } "black" "white"
        (some "https://a?b=c")] := by
  decide

/-- Claim C4, amended: the output path is the `--output` flag value when the
flag is supplied nonempty, else the positional `outputFile` when supplied,
else the generated default `qr_<timestamp>.png`; an empty `--output` value
falls through to the positional argument.  The image-file write of a direct
mode run lands at this resolved path. -/
theorem c4_output_resolution (reqAvail : Bool) (net : HttpRequest → HttpOutcome)
    (abspath : String → String) (now : DateTime) (args : Args) (u f : String)
    (hapi : args.from_api = false) (hurl : args.invitation_url = some u)
    (hu : u ≠ "") (hf : f ≠ "") :
    Event.writeFile (outputPath args now)
        { version := 1, errorCorrection := ECLevel.L, boxSize := args.size,
          border := 4, fit := true } "black" "white" (some u) ∈
      main reqAvail net abspath now args ∧
    outputPath { args with output_file_flag := some f } now = f ∧
    outputPath { args with output_file_flag := none } now =
      args.output_file.getD ("qr_" ++ strftimeTs now ++ ".png") ∧
    outputPath { args with output_file_flag := some "" } now =
      args.output_file.getD ("qr_" ++ strftimeTs now ++ ".png") := by
  refine ⟨?_, ?_, ?_, ?_⟩
  · have hmain : main reqAvail net abspath now args =
        successTail reqAvail abspath args (outputPath args now) (some u) := by
      simp [main, hapi, hurl, truthy, hu]
    rw [hmain]
    exact write_mem_successTail reqAvail abspath args (outputPath args now)
      (some u)
  · simp [outputPath, pyOrOpt, hf]
  · simp [outputPath, pyOrOpt]
  · simp [outputPath, pyOrOpt]

/-- Claim C4, witness for the amended theorem at a concrete invocation. -/
theorem c4_output_resolution_witness :
    Event.writeFile (outputPath argsDirect ts0)
        { version := 1, errorCorrection := ECLevel.L,
          boxSize := argsDirect.size, border := 4, fit := true }
        "black" "white" (some "https://a?b=c") ∈
      main true netOK cwdAbs ts0 argsDirect ∧
    outputPath { argsDirect with output_file_flag := some "flag.png" } ts0 =
      "flag.png" ∧
    outputPath { argsDirect with output_file_flag := none } ts0 =
      argsDirect.output_file.getD ("qr_" ++ strftimeTs ts0 ++ ".png") ∧
    outputPath { argsDirect with output_file_flag := some "" } ts0 =
      argsDirect.output_file.getD ("qr_" ++ strftimeTs ts0 ++ ".png") :=
  c4_output_resolution true netOK cwdAbs ts0 argsDirect "https://a?b=c"
    "flag.png" rfl rfl (by decide) (by decide)

/-- Claim C5: in API mode with a resolvable key, the trace contains exactly
one HTTP POST, and that POST goes to `{baseUrl}/didcomm/oob/create-invitation`
with the `authorization` header set to the API key, a 30-second timeout, and
the exact JSON body of lines 71-81. -/
theorem c5_api_request (net : HttpRequest → HttpOutcome)
    (abspath : String → String) (now : DateTime) (args : Args)
    (hapi : args.from_api = true) (hkey : args.api_key ≠ "") :
    countPosts (main true net abspath now args) = 1 ∧
    Event.httpPost
        { url := args.base_url ++ "/didcomm/oob/create-invitation",
          authorization := args.api_key,
          contentType := "application/json",
          body :=
            { label := args.label, goalCode := "issue-vc",
              goal := "Issue Verifiable Credential", handshake := true,
              handshakeProtocols :=
                ["https://didcomm.org/didexchange/1.x",
                 "https://didcomm.org/connections/1.x"],
              autoAcceptConnection := true },
          timeout := 30 } ∈ main true net abspath now args := by
  have hreq : apiReq args =
      { url := args.base_url ++ "/didcomm/oob/create-invitation",
        authorization := args.api_key,
        contentType := "application/json",
        body :=
          { label := args.label, goalCode := "issue-vc",
            goal := "Issue Verifiable Credential", handshake := true,
            handshakeProtocols :=
              ["https://didcomm.org/didexchange/1.x",
               "https://didcomm.org/connections/1.x"],
            autoAcceptConnection := true },
        timeout := 30 } := rfl
  rw [← hreq]
  rcases hn : net (apiReq args) with m | ⟨s, body⟩
  · constructor <;>
      simp [main, hapi, hkey, hn, apiPre, countPosts, isPost,
        List.countP_cons, List.countP_append]
  · by_cases hs : 400 ≤ s ∧ s < 600
    · constructor <;>
        simp [main, hapi, hkey, hn, hs, apiPre, countPosts, isPost,
          List.countP_cons, List.countP_append]
    · constructor <;>
        cases hj : args.json <;> cases ht : args.terminal <;>
          simp [main, hapi, hkey, hn, hs, hj, ht, apiPre, jsonDump,
            successNote, successTail, create_qr_code, print_terminal_qr,
            countPosts, isPost, List.countP_cons, List.countP_append]

/-- Claim C5, witness at a concrete API-mode invocation. -/
theorem c5_api_request_witness :
    countPosts (main true netOK cwdAbs ts0 argsApi) = 1 ∧
    Event.httpPost
        { url := argsApi.base_url ++ "/didcomm/oob/create-invitation",
          authorization := argsApi.api_key,
          contentType := "application/json",
          body :=
            { label := argsApi.label, goalCode := "issue-vc",
              goal := "Issue Verifiable Credential", handshake := true,
              handshakeProtocols :=
                ["https://didcomm.org/didexchange/1.x",
                 "https://didcomm.org/connections/1.x"],
              autoAcceptConnection := true },
          timeout := 30 } ∈ main true netOK cwdAbs ts0 argsApi :=
  c5_api_request netOK cwdAbs ts0 argsApi rfl (by decide)

/-- Claim C6: when the API response is successful but its body lacks the
`invitationUrl` field, acquisition does not fail — there is no failure exit
anywhere in the trace (the script calls no `sys.exit` after acquisition) —
and the downstream encode and display steps receive `None`: the file write
carries data `none` and the URL display prints the Python rendering
`"None"`. -/
theorem c6_missing_invitation_url (net : HttpRequest → HttpOutcome)
    (abspath : String → String) (now : DateTime) (args : Args) (s : Nat)
    (body : ApiResponse)
    (hapi : args.from_api = true) (hkey : args.api_key ≠ "")
    (hn : net (apiReq args) = HttpOutcome.response s body)
    (hs : ¬(400 ≤ s ∧ s < 600))
    (hbody : body.invitationUrl = none) :
    Event.exitFailure ∉ main true net abspath now args ∧
    Event.writeFile (outputPath args now)
        { version := 1, errorCorrection := ECLevel.L, boxSize := args.size,
          border := 4, fit := true } "black" "white" none ∈
      main true net abspath now args ∧
    Event.print "None" ∈ main true net abspath now args := by
  have heq : main true net abspath now args =
      apiPre args ++ [Event.httpPost (apiReq args)] ++ jsonDump args body ++
        successNote body ++
        successTail true abspath args (outputPath args now) none := by
    simp [main, hapi, hkey, hn, hs, hbody]
  refine ⟨?_, ?_, ?_⟩
  · rw [heq]
    cases hj : args.json <;>
      simp [apiPre, jsonDump, successNote, hj,
        exitFailure_not_mem_successTail]
  · rw [heq]
    simp [List.mem_append, write_mem_successTail]
  · rw [heq]
    simp [List.mem_append, printNone_mem_successTail]

/-- Claim C6, witness: a concrete 200 response without `invitationUrl`. -/
theorem c6_missing_invitation_url_witness :
    Event.exitFailure ∉ main true netNoUrl cwdAbs ts0 argsApi ∧
    Event.writeFile (outputPath argsApi ts0)
        { version := 1, errorCorrection := ECLevel.L, boxSize := argsApi.size,
          border := 4, fit := true } "black" "white" none ∈
      main true netNoUrl cwdAbs ts0 argsApi ∧
    Event.print "None" ∈ main true netNoUrl cwdAbs ts0 argsApi :=
  c6_missing_invitation_url netNoUrl cwdAbs ts0 argsApi 200 noUrlBody rfl
    (by decide) rfl (by decide) rfl

/-- Claim C7: in direct mode the file-output QR encode uses version 1 with
fit mode, error-correction level L, box size `--size`, a 4-module border,
black on white, and saves at the resolved output path. -/
theorem c7_qr_encode_params (reqAvail : Bool) (net : HttpRequest → HttpOutcome)
    (abspath : String → String) (now : DateTime) (args : Args) (u : String)
    (hapi : args.from_api = false) (hurl : args.invitation_url = some u)
    (hu : u ≠ "") :
    Event.writeFile (outputPath args now)
        { version := 1, errorCorrection := ECLevel.L, boxSize := args.size,
          border := 4, fit := true } "black" "white" (some u) ∈
      main reqAvail net abspath now args := by
  have hmain : main reqAvail net abspath now args =
      successTail reqAvail abspath args (outputPath args now) (some u) := by
    simp [main, hapi, hurl, truthy, hu]
  rw [hmain]
  exact write_mem_successTail reqAvail abspath args (outputPath args now)
    (some u)

/-- Claim C7, witness at a concrete direct-mode invocation. -/
theorem c7_qr_encode_params_witness :
    Event.writeFile (outputPath argsDirect ts0)
        { version := 1, errorCorrection := ECLevel.L,
          boxSize := argsDirect.size, border := 4, fit := true }
        "black" "white" (some "https://a?b=c") ∈
      main true netOK cwdAbs ts0 argsDirect :=
  c7_qr_encode_params true netOK cwdAbs ts0 argsDirect "https://a?b=c" rfl rfl
    (by decide)

/-- Claim C8: the console order of a successful invocation, shown as the full
trace for both modes with `--terminal` set: (direct mode) generation status,
file write, absolute output path, terminal QR art, then "Invitation URL:",
the raw URL unchanged, and the qrserver link; (API mode, without `--json`)
the API-creation status lines and the POST first, then the same tail for the
API-returned URL. -/
theorem c8_output_order (net : HttpRequest → HttpOutcome)
    (abspath : String → String) (now : DateTime) (args1 args2 : Args)
    (u1 u2 : String) (s : Nat) (body : ApiResponse)
    (h1api : args1.from_api = false) (h1url : args1.invitation_url = some u1)
    (h1u : u1 ≠ "") (h1t : args1.terminal = true)
    (h2api : args2.from_api = true) (h2key : args2.api_key ≠ "")
    (h2t : args2.terminal = true) (h2j : args2.json = false)
    (hn : net (apiReq args2) = HttpOutcome.response s body)
    (hs : ¬(400 ≤ s ∧ s < 600)) (hbody : body.invitationUrl = some u2) :
    main true net abspath now args1 =
      [Event.print "Generating QR code...",
       Event.writeFile (outputPath args1 now)
         { version := 1, errorCorrection := ECLevel.L, boxSize := args1.size,
           border := 4, fit := true } "black" "white" (some u1),
       Event.print ("  Output: " ++ abspath (outputPath args1 now)),
       Event.print "",
       Event.print "Terminal QR Code:",
       Event.terminalQr
         { version := 1, errorCorrection := ECLevel.L, boxSize := 1,
           border := 2, fit := true } true (some u1),
       Event.print "",
       Event.print "Invitation URL:",
       Event.print u1,
       Event.print "",
       Event.print "Online QR Generator:",
       Event.print
         ("https://api.qrserver.com/v1/create-qr-code/?size=300x300&data=" ++
           pyQuote u1),
       Event.print "",
       Event.print "Done! Scan the QR code with your mobile wallet."] ∧
    main true net abspath now args2 =
      [Event.print "Creating invitation via API...",
       Event.print ("  Base URL: " ++ args2.base_url),
       Event.print ("  Label: " ++ args2.label),
       Event.print "",
       Event.httpPost (apiReq args2),
       Event.print "Invitation created successfully!",
       Event.print ("  OOB Record ID: " ++ body.outOfBandRecordId.getD "N/A"),
       Event.print "",
       Event.print "Generating QR code...",
       Event.writeFile (outputPath args2 now)
         { version := 1, errorCorrection := ECLevel.L, boxSize := args2.size,
           border := 4, fit := true } "black" "white" (some u2),
       Event.print ("  Output: " ++ abspath (outputPath args2 now)),
       Event.print "",
       Event.print "Terminal QR Code:",
       Event.terminalQr
         { version := 1, errorCorrection := ECLevel.L, boxSize := 1,
           border := 2, fit := true } true (some u2),
       Event.print "",
       Event.print "Invitation URL:",
       Event.print u2,
       Event.print "",
       Event.print "Online QR Generator:",
       Event.print
         ("https://api.qrserver.com/v1/create-qr-code/?size=300x300&data=" ++
           pyQuote u2),
       Event.print "",
       Event.print "Done! Scan the QR code with your mobile wallet."] := by
  constructor
  · simp [main, h1api, h1url, truthy, h1u, successTail, h1t, create_qr_code,
      print_terminal_qr, pyStr, encodedUrl]
  · simp [main, h2api, h2key, hn, hs, hbody, apiPre, jsonDump, h2j,
      successNote, successTail, h2t, create_qr_code, print_terminal_qr,
      pyStr, encodedUrl]

/-- Claim C8, witness instantiating both modes concretely. -/
theorem c8_output_order_witness :
    main true netOK cwdAbs ts0 argsDirectTerm =
      [Event.print "Generating QR code...",
       Event.writeFile (outputPath argsDirectTerm ts0)
         { version := 1, errorCorrection := ECLevel.L,
           boxSize := argsDirectTerm.size, border := 4, fit := true }
         "black" "white" (some "https://a?b=c"),
       Event.print ("  Output: " ++ cwdAbs (outputPath argsDirectTerm ts0)),
       Event.print "",
       Event.print "Terminal QR Code:",
       Event.terminalQr
         { version := 1, errorCorrection := ECLevel.L, boxSize := 1,
           border := 2, fit := true } true (some "https://a?b=c"),
       Event.print "",
       Event.print "Invitation URL:",
       Event.print "https://a?b=c",
       Event.print "",
       Event.print "Online QR Generator:",
       Event.print
         ("https://api.qrserver.com/v1/create-qr-code/?size=300x300&data=" ++
           pyQuote "https://a?b=c"),
       Event.print "",
       Event.print "Done! Scan the QR code with your mobile wallet."] ∧
    main true netOK cwdAbs ts0 argsApiTerm =
      [Event.print "Creating invitation via API...",
       Event.print ("  Base URL: " ++ argsApiTerm.base_url),
       Event.print ("  Label: " ++ argsApiTerm.label),
       Event.print "",
       Event.httpPost (apiReq argsApiTerm),
       Event.print "Invitation created successfully!",
       Event.print ("  OOB Record ID: " ++ okBody.outOfBandRecordId.getD "N/A"),
       Event.print "",
       Event.print "Generating QR code...",
       Event.writeFile (outputPath argsApiTerm ts0)
         { version := 1, errorCorrection := ECLevel.L,
           boxSize := argsApiTerm.size, border := 4, fit := true }
         "black" "white" (some "https://x?oob=Y"),
       Event.print ("  Output: " ++ cwdAbs (outputPath argsApiTerm ts0)),
       Event.print "",
       Event.print "Terminal QR Code:",
       Event.terminalQr
         { version := 1, errorCorrection := ECLevel.L, boxSize := 1,
           border := 2, fit := true } true (some "https://x?oob=Y"),
       Event.print "",
       Event.print "Invitation URL:",
       Event.print "https://x?oob=Y",
       Event.print "",
       Event.print "Online QR Generator:",
       Event.print
         ("https://api.qrserver.com/v1/create-qr-code/?size=300x300&data=" ++
           pyQuote "https://x?oob=Y"),
       Event.print "",
       Event.print "Done! Scan the QR code with your mobile wallet."] :=
  c8_output_order netOK cwdAbs ts0 argsDirectTerm argsApiTerm "https://a?b=c"
    "https://x?oob=Y" 201 okBody rfl rfl (by decide) rfl rfl (by decide) rfl
    rfl rfl (by decide) rfl

/-- Claim C9, counterexample: the printed qrserver link does not escape all
URL-reserved characters of the invitation URL — `requests.utils.quote` keeps
`/` (a reserved character present in the invitation URL) unescaped in the
`data=` value. -/
theorem c9_counterexample :
    Event.print
        ("https://api.qrserver.com/v1/create-qr-code/?size=300x300&data=" ++
          pyQuote "https://a/b?c=d&e") ∈
      main true netOK cwdAbs ts0 argsReserved ∧
    pyQuote "https://a/b?c=d&e" = "https%3A//a/b%3Fc%3Dd%26e" ∧
    urlReserved '/' = true ∧
    '/' ∈ ("https://a/b?c=d&e").data ∧
    '/' ∈ (pyQuote "https://a/b?c=d&e").data := by
  refine ⟨?_, ?_, ?_, ?_, ?_⟩ <;> decide

/-- Claim C9, amended: the printed link carries the invitation URL encoded by
`requests.utils.quote` when the `requests` package is available — escaping
reserved characters except `/` and leaving unreserved characters intact — and
with only `&` replaced by `%26` when it is not. -/
theorem c9_link_encoding (reqAvail : Bool) (net : HttpRequest → HttpOutcome)
    (abspath : String → String) (now : DateTime) (args : Args) (u : String)
    (hapi : args.from_api = false) (hurl : args.invitation_url = some u)
    (hu : u ≠ "") :
    Event.print
        ("https://api.qrserver.com/v1/create-qr-code/?size=300x300&data=" ++
          (if reqAvail then pyQuote u else pyReplaceAmp u)) ∈
      main reqAvail net abspath now args := by
  have hmain : main reqAvail net abspath now args =
      successTail reqAvail abspath args (outputPath args now) (some u) := by
    simp [main, hapi, hurl, truthy, hu]
  rw [hmain]
  have h := qrLink_mem_successTail reqAvail abspath args (outputPath args now)
    (some u)
  simpa [encodedUrl, pyStr] using h

/-- Claim C9, witness for the amended theorem with `requests` available. -/
theorem c9_link_encoding_witness :
    Event.print
        ("https://api.qrserver.com/v1/create-qr-code/?size=300x300&data=" ++
          (if true then pyQuote "https://a/b?c=d&e"
           else pyReplaceAmp "https://a/b?c=d&e")) ∈
      main true netOK cwdAbs ts0 argsReserved :=
  c9_link_encoding true netOK cwdAbs ts0 argsReserved "https://a/b?c=d&e" rfl
    rfl (by decide)

/-- Claim C10: when both a positional invitation URL and `--from-api` are
supplied with a resolvable key, there is no usage error and no failure exit;
the API path is taken and the single image write encodes the API-returned
`invitationUrl`, not the positional argument. -/
theorem c10_api_wins (net : HttpRequest → HttpOutcome)
    (abspath : String → String) (now : DateTime) (args : Args) (p u : String)
    (s : Nat) (body : ApiResponse)
    (hapi : args.from_api = true) (hurl : args.invitation_url = some p)
    (hkey : args.api_key ≠ "")
    (hn : net (apiReq args) = HttpOutcome.response s body)
    (hs : ¬(400 ≤ s ∧ s < 600)) (hbody : body.invitationUrl = some u) :
    Event.printHelp ∉ main true net abspath now args ∧
    Event.exitFailure ∉ main true net abspath now args ∧
    writesOf (main true net abspath now args) =
      [Event.writeFile (outputPath args now)
        { version := 1, errorCorrection := ECLevel.L, boxSize := args.size,
          border := 4, fit := true } "black" "white" (some u)] := by
  have heq : main true net abspath now args =
      apiPre args ++ [Event.httpPost (apiReq args)] ++ jsonDump args body ++
        successNote body ++
        successTail true abspath args (outputPath args now) (some u) := by
    simp [main, hapi, hkey, hn, hs, hbody]
  refine ⟨?_, ?_, ?_⟩
  · rw [heq]
    cases hj : args.json <;>
      simp [apiPre, jsonDump, successNote, hj, printHelp_not_mem_successTail]
  · rw [heq]
    cases hj : args.json <;>
      simp [apiPre, jsonDump, successNote, hj,
        exitFailure_not_mem_successTail]
  · rw [heq]
    simp only [writesOf_append, writesOf_apiPre, writesOf_post,
      writesOf_jsonDump, writesOf_successNote, writesOf_successTail,
      List.nil_append, List.append_nil]

/-- Claim C10, witness: concrete invocation with both inputs supplied. -/
theorem c10_api_wins_witness :
    Event.printHelp ∉ main true netOK cwdAbs ts0 argsBoth ∧
    Event.exitFailure ∉ main true netOK cwdAbs ts0 argsBoth ∧
    writesOf (main true netOK cwdAbs ts0 argsBoth) =
      [Event.writeFile (outputPath argsBoth ts0)
        { version := 1, errorCorrection := ECLevel.L,
          boxSize := argsBoth.size, border := 4, fit := true }
        "black" "white" (some "https://x?oob=Y")] :=
  c10_api_wins netOK cwdAbs ts0 argsBoth "https://example.com?oob=ABC"
    "https://x?oob=Y" 201 okBody rfl rfl (by decide) rfl (by decide) rfl

end GenerateQr
